import Mathlib

/-!
Shallow embedding of `aniki_treasury/sources/treasury.move` (module `aniki::treasury`).

Modelling conventions:
* `u64` values become `Nat`. Move arithmetic is checked: the only subtraction in the
  module (`now - treasury.last_reset` in `update_daily_spending`) aborts on underflow,
  modelled by the `eNatUnderflow` outcome; every addition that could overflow `u64`
  is guarded in the source by a `<=` comparison against a `u64` bound, so `Nat`
  addition is faithful on all inputs the code accepts.
* A Move `abort` rolls back the whole transaction, so every entry point is a function
  from the pre-state to `Except MoveErr post-state`: an error result commits nothing.
* `sui::table::Table` becomes an association list; `table::add` aborts when the key is
  already present (the `sui::dynamic_field` duplicate-field abort, a distinct abort
  site from every `aniki::treasury` error constant), modelled by `eFieldAlreadyExists`.
* Addresses and object ids become `Nat`; capability binding checks compare the stored
  treasury id fields exactly as the source's `object::uid_to_inner` comparisons do.
* `event::emit` calls become an emitted-event list in the success value; an abort
  discards them, as on chain.
-/

namespace Aniki

/-- Abort outcomes of the module. The first eight mirror the `aniki::treasury` error
constants (`E_NOT_AUTHORIZED = 0`, …); `eFieldAlreadyExists` is the framework abort
raised by `table::add` on a present key, and `eNatUnderflow` is the checked `u64`
subtraction abort. Two `aniki::treasury` asserts can share one constant (for example
both the signer-membership and the duplicate-approver checks abort with
`E_NOT_AUTHORIZED`), and then the caller cannot tell them apart. -/
inductive MoveErr where
  | eNotAuthorized
  | eInsufficientBalance
  | eInvalidThreshold
  | eEmergencyModeActive
  | eColdWalletApprovalRequired
  | eMultisigThresholdNotMet
  | eDailyLimitExceeded
  | eInvalidAgentId
  | eFieldAlreadyExists
  | eNatUnderflow
  deriving DecidableEq, Repr

/-- Events emitted by the module (struct `TreasuryCreated` … `ApprovalProvided`). -/
inductive Event where
  | treasuryCreated (treasury_id admin cold_threshold hot_threshold : Nat)
  | agentAllocated (treasury_id : Nat) (agent_id : String) (amount security_level : Nat)
  | fundsTransferred (treasury_id recipient amount approval_mode : Nat)
      (approval_id : Option Nat)
  | emergencyActivated (treasury_id : Nat) (reason : String) (activated_by : Nat)
  | approvalRequested (treasury_id approval_id amount recipient required_approvals : Nat)
  | approvalProvided (treasury_id approval_id approver total_approvals : Nat)
  deriving DecidableEq, Repr

/-- `struct AgentAllocation` of the source. -/
structure AgentAllocation where
  agent_id : String
  allocated_amount : Nat
  spent_amount : Nat
  security_level : Nat
  created_at : Nat
  expires_at : Nat
  deriving DecidableEq, Repr

/-- `struct PendingApproval` of the source. -/
structure PendingApproval where
  id : Nat
  amount : Nat
  recipient : Nat
  approvals : List Nat
  required_approvals : Nat
  created_at : Nat
  expires_at : Nat
  memo : String
  deriving DecidableEq, Repr

/-- `struct Treasury` of the source; `tid` is the object id `object::uid_to_inner(&id)`. -/
structure Treasury where
  tid : Nat
  admin : Nat
  cold_wallet : Nat
  hot_wallet : Nat
  cold_threshold : Nat
  hot_threshold : Nat
  emergency_mode : Bool
  multisig_signers : List Nat
  multisig_threshold : Nat
  daily_limit : Nat
  daily_spent : Nat
  last_reset : Nat
  agent_allocations : List (String × AgentAllocation)
  pending_approvals : List (Nat × PendingApproval)
  approval_counter : Nat
  deriving DecidableEq, Repr

/-- `struct TreasuryBalance` of the source (the pooled `Balance<SUI>` plus the id
of the treasury it belongs to). -/
structure TreasuryBalance where
  balance : Nat
  treasury_id : Nat
  deriving DecidableEq, Repr

/-- `struct TreasuryAdminCap` of the source. -/
structure TreasuryAdminCap where
  treasury_id : Nat
  deriving DecidableEq, Repr

/-- `struct AgentCap` of the source. -/
structure AgentCap where
  agent_id : String
  treasury_id : Nat
  max_amount : Nat
  expires_at : Nat
  deriving DecidableEq, Repr

/-- `sui::table` membership test (`table::contains`). -/
def tblContains {α β : Type} [DecidableEq α] (t : List (α × β)) (k : α) : Bool :=
  t.any (fun p => decide (p.1 = k))

/-- `sui::table` lookup (`table::borrow` / `table::borrow_mut` read side). -/
def tblGet {α β : Type} [DecidableEq α] (t : List (α × β)) (k : α) : Option β :=
  (t.find? (fun p => decide (p.1 = k))).map (fun p => p.2)

/-- Write-back of a `table::borrow_mut` mutation: replace the value stored at `k`. -/
def tblSet {α β : Type} [DecidableEq α] (t : List (α × β)) (k : α) (v : β) :
    List (α × β) :=
  t.map (fun p => if p.1 = k then (k, v) else p)

/-- `table::remove`. -/
def tblRemove {α β : Type} [DecidableEq α] (t : List (α × β)) (k : α) :
    List (α × β) :=
  t.filter (fun p => decide (p.1 ≠ k))

/-- `initialize_treasury`: validates the thresholds, then creates the shared
`Treasury`, its `TreasuryBalance` (zero balance), and the `TreasuryAdminCap`.
`tid` stands for the fresh object id minted by `object::new`. -/
def initialize_treasury (tid admin cold_wallet hot_wallet : Nat)
    (cold_threshold hot_threshold daily_limit : Nat)
    (multisig_signers : List Nat) (multisig_threshold : Nat) (now : Nat) :
    Except MoveErr (Treasury × TreasuryAdminCap × TreasuryBalance × List Event) :=
  if ¬ cold_threshold > hot_threshold then .error .eInvalidThreshold
  else if ¬ multisig_threshold > 0 then .error .eInvalidThreshold
  else if ¬ multisig_threshold ≤ multisig_signers.length then .error .eInvalidThreshold
  else
    .ok ({ tid := tid, admin := admin, cold_wallet := cold_wallet,
           hot_wallet := hot_wallet, cold_threshold := cold_threshold,
           hot_threshold := hot_threshold, emergency_mode := false,
           multisig_signers := multisig_signers,
           multisig_threshold := multisig_threshold, daily_limit := daily_limit,
           daily_spent := 0, last_reset := now, agent_allocations := [],
           pending_approvals := [], approval_counter := 0 },
         { treasury_id := tid },
         { balance := 0, treasury_id := tid },
         [Event.treasuryCreated tid admin cold_threshold hot_threshold])

/-- `deposit`: after the instance-binding check, joins the payment into the pooled
balance. There is no emergency-mode check in the source. -/
def deposit (t : Treasury) (b : TreasuryBalance) (amount : Nat) :
    Except MoveErr (Treasury × TreasuryBalance) :=
  if ¬ t.tid = b.treasury_id then .error .eNotAuthorized
  else .ok (t, { b with balance := b.balance + amount })

/-- `update_daily_spending`: lazy daily-window roll. The source computes
`now - treasury.last_reset` with checked `u64` subtraction, which aborts when the
clock reads earlier than `last_reset`. -/
def update_daily_spending (t : Treasury) (now : Nat) : Except MoveErr Treasury :=
  if now < t.last_reset then .error .eNatUnderflow
  else if now - t.last_reset ≥ 86400000 then
    .ok { t with daily_spent := 0, last_reset := now }
  else .ok t

/-- `execute_transfer`: ledger debit; aborts (`E_INSUFFICIENT_BALANCE`) when the
pooled balance is smaller than `amount`, otherwise splits the coin off to the
recipient (the actual coin motion is external). -/
def execute_transfer (b : TreasuryBalance) (recipient amount : Nat) :
    Except MoveErr TreasuryBalance :=
  if b.balance ≥ amount then .ok { b with balance := b.balance - amount }
  else .error .eInsufficientBalance

/-- `create_pending_approval`: takes the current counter as the id, bumps the
counter, and `table::add`s the new `PendingApproval` with an empty approvals
vector and `expires_at = now + 86400000`. -/
def create_pending_approval (t : Treasury) (amount recipient required_approvals : Nat)
    (memo : String) (now : Nat) : Except MoveErr (Treasury × Nat × List Event) :=
  let approval_id := t.approval_counter
  if tblContains t.pending_approvals approval_id then .error .eFieldAlreadyExists
  else
    .ok ({ t with
           approval_counter := t.approval_counter + 1,
           pending_approvals :=
             (approval_id,
              { id := approval_id, amount := amount, recipient := recipient,
                approvals := [], required_approvals := required_approvals,
                created_at := now, expires_at := now + 86400000,
                memo := memo }) :: t.pending_approvals },
         approval_id,
         [Event.approvalRequested t.tid approval_id amount recipient required_approvals])

/-- `allocate_agent_budget`: admin-capability check, emergency check, lazy daily
roll, daily-limit check, then `table::add` of the new allocation (which aborts if
one already exists for `agent_id`), `daily_spent` bump, and the minted `AgentCap`. -/
def allocate_agent_budget (t : Treasury) (agent_id : String)
    (amount security_level duration_ms : Nat) (admin_cap : TreasuryAdminCap)
    (now : Nat) : Except MoveErr (Treasury × AgentCap × List Event) :=
  if ¬ t.tid = admin_cap.treasury_id then .error .eNotAuthorized
  else if t.emergency_mode then .error .eEmergencyModeActive
  else
    match update_daily_spending t now with
    | .error e => .error e
    | .ok t1 =>
      if ¬ t1.daily_spent + amount ≤ t1.daily_limit then .error .eDailyLimitExceeded
      else if tblContains t1.agent_allocations agent_id then .error .eFieldAlreadyExists
      else
        .ok ({ t1 with
               agent_allocations :=
                 (agent_id,
                  { agent_id := agent_id, allocated_amount := amount,
                    spent_amount := 0, security_level := security_level,
                    created_at := now,
                    expires_at := now + duration_ms }) :: t1.agent_allocations,
               daily_spent := t1.daily_spent + amount },
             { agent_id := agent_id, treasury_id := t1.tid, max_amount := amount,
               expires_at := now + duration_ms },
             [Event.agentAllocated t1.tid agent_id amount security_level])

/-- `agent_transfer`: binding, emergency, capability-max, capability-expiry,
known-agent and per-allocation budget checks, then routing on
`amount >= treasury.cold_threshold`: at or above the threshold a
`PendingApproval` is opened (allocation untouched); below it the ledger is
debited immediately and `spent_amount` is bumped. -/
def agent_transfer (t : Treasury) (b : TreasuryBalance) (cap : AgentCap)
    (recipient amount : Nat) (memo : String) (now : Nat) :
    Except MoveErr (Treasury × TreasuryBalance × List Event × Option Nat) :=
  if ¬ t.tid = cap.treasury_id then .error .eNotAuthorized
  else if ¬ t.tid = b.treasury_id then .error .eNotAuthorized
  else if t.emergency_mode then .error .eEmergencyModeActive
  else if ¬ amount ≤ cap.max_amount then .error .eInsufficientBalance
  else if ¬ now ≤ cap.expires_at then .error .eInvalidAgentId
  else
    match tblGet t.agent_allocations cap.agent_id with
    | none => .error .eInvalidAgentId
    | some allocation =>
      if ¬ allocation.spent_amount + amount ≤ allocation.allocated_amount then
        .error .eInsufficientBalance
      else if amount ≥ t.cold_threshold then
        match create_pending_approval t amount recipient t.multisig_threshold memo now with
        | .error e => .error e
        | .ok (t1, approval_id, evs) => .ok (t1, b, evs, some approval_id)
      else
        match execute_transfer b recipient amount with
        | .error e => .error e
        | .ok b1 =>
          .ok ({ t with
                 agent_allocations :=
                   tblSet t.agent_allocations cap.agent_id
                     { allocation with
                       spent_amount := allocation.spent_amount + amount } },
               b1,
               [Event.fundsTransferred t.tid recipient amount 0 none],
               none)

/-- `approve_transaction`: emergency, existence, signer-membership and
duplicate-approver checks (the last two both abort with `E_NOT_AUTHORIZED`),
then records the approver; once the approvals vector reaches
`required_approvals` it debits the ledger, emits the quorum `FundsTransferred`,
and deletes the `PendingApproval`. No allocation is touched. -/
def approve_transaction (t : Treasury) (b : TreasuryBalance)
    (approval_id approver : Nat) :
    Except MoveErr (Treasury × TreasuryBalance × List Event) :=
  if t.emergency_mode then .error .eEmergencyModeActive
  else
    match tblGet t.pending_approvals approval_id with
    | none => .error .eInvalidAgentId
    | some approval =>
      if ¬ approver ∈ t.multisig_signers then .error .eNotAuthorized
      else if approver ∈ approval.approvals then .error .eNotAuthorized
      else
        let approval1 :=
          { approval with approvals := approval.approvals ++ [approver] }
        let ev1 := Event.approvalProvided t.tid approval_id approver
          approval1.approvals.length
        if approval1.approvals.length ≥ approval1.required_approvals then
          match execute_transfer b approval1.recipient approval1.amount with
          | .error e => .error e
          | .ok b1 =>
            .ok ({ t with
                   pending_approvals :=
                     tblRemove (tblSet t.pending_approvals approval_id approval1)
                       approval_id },
                 b1,
                 [ev1,
                  Event.fundsTransferred t.tid approval1.recipient approval1.amount 2
                    (some approval_id)])
        else
          .ok ({ t with
                 pending_approvals := tblSet t.pending_approvals approval_id approval1 },
               b, [ev1])

/-- `emergency_stop`: admin-capability check, then sets the emergency flag. -/
def emergency_stop (t : Treasury) (reason : String) (admin_cap : TreasuryAdminCap)
    (sender : Nat) : Except MoveErr (Treasury × List Event) :=
  if ¬ t.tid = admin_cap.treasury_id then .error .eNotAuthorized
  else .ok ({ t with emergency_mode := true },
            [Event.emergencyActivated t.tid reason sender])

/-- `deactivate_emergency`: admin-capability check, then clears the flag. -/
def deactivate_emergency (t : Treasury) (admin_cap : TreasuryAdminCap) :
    Except MoveErr Treasury :=
  if ¬ t.tid = admin_cap.treasury_id then .error .eNotAuthorized
  else .ok { t with emergency_mode := false }

/-- View `get_treasury_balance`. -/
def get_treasury_balance (b : TreasuryBalance) : Nat := b.balance

/-- View `get_agent_allocation` (`table::borrow` aborts when absent, hence `Option`). -/
def get_agent_allocation (t : Treasury) (agent_id : String) :
    Option (Nat × Nat × Nat) :=
  (tblGet t.agent_allocations agent_id).map
    (fun a => (a.allocated_amount, a.spent_amount, a.security_level))

/-- View `get_daily_spending`. -/
def get_daily_spending (t : Treasury) : Nat × Nat := (t.daily_spent, t.daily_limit)

/-- View `is_emergency_mode`. -/
def is_emergency_mode (t : Treasury) : Bool := t.emergency_mode

/-- View `get_pending_approval` (`table::borrow` aborts when absent, hence `Option`). -/
def get_pending_approval (t : Treasury) (approval_id : Nat) :
    Option (Nat × Nat × Nat × Nat) :=
  (tblGet t.pending_approvals approval_id).map
    (fun a => (a.amount, a.recipient, a.approvals.length, a.required_approvals))

/-- The mutable state one treasury deployment owns: the shared `Treasury` object
and its `TreasuryBalance` object. -/
structure SysState where
  treasury : Treasury
  bal : TreasuryBalance
  deriving DecidableEq, Repr

/-- Observable post-state of a `deposit` transaction: an abort commits nothing. -/
def runDeposit (s : SysState) (amount : Nat) : SysState :=
  match deposit s.treasury s.bal amount with
  | .ok r => ⟨r.1, r.2⟩
  | .error _ => s

/-- Observable post-state of an `allocate_agent_budget` transaction. -/
def runAllocate (s : SysState) (agent_id : String)
    (amount security_level duration_ms : Nat) (admin_cap : TreasuryAdminCap)
    (now : Nat) : SysState :=
  match allocate_agent_budget s.treasury agent_id amount security_level duration_ms
      admin_cap now with
  | .ok r => ⟨r.1, s.bal⟩
  | .error _ => s

/-- Observable post-state of an `agent_transfer` transaction. -/
def runTransfer (s : SysState) (cap : AgentCap) (recipient amount : Nat)
    (memo : String) (now : Nat) : SysState :=
  match agent_transfer s.treasury s.bal cap recipient amount memo now with
  | .ok r => ⟨r.1, r.2.1⟩
  | .error _ => s

/-- Observable post-state of an `approve_transaction` transaction. -/
def runApprove (s : SysState) (approval_id approver : Nat) : SysState :=
  match approve_transaction s.treasury s.bal approval_id approver with
  | .ok r => ⟨r.1, r.2.1⟩
  | .error _ => s

/-- Observable post-state of an `emergency_stop` transaction. -/
def runFreeze (s : SysState) (reason : String) (admin_cap : TreasuryAdminCap)
    (sender : Nat) : SysState :=
  match emergency_stop s.treasury reason admin_cap sender with
  | .ok r => ⟨r.1, s.bal⟩
  | .error _ => s

/-- Observable post-state of a `deactivate_emergency` transaction. -/
def runUnfreeze (s : SysState) (admin_cap : TreasuryAdminCap) : SysState :=
  match deactivate_emergency s.treasury admin_cap with
  | .ok t => ⟨t, s.bal⟩
  | .error _ => s

/-- States reachable by the module's public entry points from `initialize_treasury`.
The step rules pass arbitrary capability values (even ones the treasury never
minted), so every invariant proved over `Reachable` holds even against forged
capabilities. -/
inductive Reachable : SysState → Prop where
  | init (tid admin cw hw ct ht dl : Nat) (signers : List Nat) (mt now : Nat)
      (t : Treasury) (cap : TreasuryAdminCap) (b : TreasuryBalance) (ev : List Event)
      (h : initialize_treasury tid admin cw hw ct ht dl signers mt now =
        .ok (t, cap, b, ev)) :
      Reachable ⟨t, b⟩
  | step_deposit (s : SysState) (amount : Nat) (r : Treasury × TreasuryBalance)
      (hs : Reachable s) (h : deposit s.treasury s.bal amount = .ok r) :
      Reachable ⟨r.1, r.2⟩
  | step_allocate (s : SysState) (agent_id : String)
      (amount security_level duration_ms : Nat) (admin_cap : TreasuryAdminCap)
      (now : Nat) (r : Treasury × AgentCap × List Event)
      (hs : Reachable s)
      (h : allocate_agent_budget s.treasury agent_id amount security_level duration_ms
        admin_cap now = .ok r) :
      Reachable ⟨r.1, s.bal⟩
  | step_transfer (s : SysState) (cap : AgentCap) (recipient amount : Nat)
      (memo : String) (now : Nat)
      (r : Treasury × TreasuryBalance × List Event × Option Nat)
      (hs : Reachable s)
      (h : agent_transfer s.treasury s.bal cap recipient amount memo now = .ok r) :
      Reachable ⟨r.1, r.2.1⟩
  | step_approve (s : SysState) (approval_id approver : Nat)
      (r : Treasury × TreasuryBalance × List Event)
      (hs : Reachable s)
      (h : approve_transaction s.treasury s.bal approval_id approver = .ok r) :
      Reachable ⟨r.1, r.2.1⟩
  | step_freeze (s : SysState) (reason : String) (admin_cap : TreasuryAdminCap)
      (sender : Nat) (r : Treasury × List Event)
      (hs : Reachable s)
      (h : emergency_stop s.treasury reason admin_cap sender = .ok r) :
      Reachable ⟨r.1, s.bal⟩
  | step_unfreeze (s : SysState) (admin_cap : TreasuryAdminCap) (t : Treasury)
      (hs : Reachable s) (h : deactivate_emergency s.treasury admin_cap = .ok t) :
      Reachable ⟨t, s.bal⟩

/-- Daily-window invariant of §8: `daily_spent ≤ daily_limit`. -/
def dailyInv (t : Treasury) : Prop := t.daily_spent ≤ t.daily_limit

/-- Per-allocation budget invariant of §8: every stored allocation has
`spent_amount ≤ allocated_amount`. -/
def allocInv (t : Treasury) : Prop :=
  ∀ p ∈ t.agent_allocations, p.2.spent_amount ≤ p.2.allocated_amount

/-- Counter freshness: every stored pending-approval key is below the counter,
so the `table::add` in `create_pending_approval` can never hit a present key. -/
def pendingFresh (t : Treasury) : Prop :=
  ∀ p ∈ t.pending_approvals, p.1 < t.approval_counter

/-- The conjunction of the reachability invariants proved below. -/
def TreasuryInv (t : Treasury) : Prop := dailyInv t ∧ allocInv t ∧ pendingFresh t

/-- Erase the `expires_at` field of a `PendingApproval` (no operation reads it). -/
def scrubPA (p : PendingApproval) : PendingApproval := { p with expires_at := 0 }

/-- Erase `expires_at` on one pending-approval table entry. -/
def entryScrub (q : Nat × PendingApproval) : Nat × PendingApproval :=
  (q.1, scrubPA q.2)

/-- Erase every pending approval's `expires_at` in a treasury; two treasuries with
the same `scrub` image differ at most in those fields. -/
def scrub (t : Treasury) : Treasury :=
  { t with pending_approvals := t.pending_approvals.map entryScrub }

/-- Concrete allocation for agent `"A"`: budget 200, nothing spent yet. -/
def exAlloc : AgentAllocation :=
  { agent_id := "A", allocated_amount := 200, spent_amount := 0,
    security_level := 1, created_at := 0, expires_at := 1000 }

/-- Concrete pending approval id 0: amount 150 to recipient 42, quorum 2, no
approvals yet. -/
def exPend : PendingApproval :=
  { id := 0, amount := 150, recipient := 42, approvals := [],
    required_approvals := 2, created_at := 5, expires_at := 86400005, memo := "m" }

/-- `exPend` after one approval by signer 7. -/
def exPend1 : PendingApproval := { exPend with approvals := [7] }

/-- Concrete treasury: threshold 100, signers `[7, 8, 9]`, quorum 2, agent `"A"`
allocated, pending approval 0 open. -/
def exT : Treasury :=
  { tid := 1, admin := 10, cold_wallet := 11, hot_wallet := 12,
    cold_threshold := 100, hot_threshold := 50, emergency_mode := false,
    multisig_signers := [7, 8, 9], multisig_threshold := 2, daily_limit := 1000,
    daily_spent := 200, last_reset := 0,
    agent_allocations := [("A", exAlloc)],
    pending_approvals := [(0, exPend)],
    approval_counter := 1 }

/-- `exT` with pending approval 0 already holding signer 7's approval. -/
def exT1 : Treasury := { exT with pending_approvals := [(0, exPend1)] }

/-- `exT` under emergency mode. -/
def exTFrozen : Treasury := { exT with emergency_mode := true }

/-- Agent capability matching `exT`'s allocation for `"A"`. -/
def exCap : AgentCap :=
  { agent_id := "A", treasury_id := 1, max_amount := 200, expires_at := 1000 }

/-- Admin capability bound to `exT`. -/
def exAdminCap : TreasuryAdminCap := { treasury_id := 1 }

/-- A well-funded balance object for treasury 1. -/
def exB : TreasuryBalance := { balance := 500, treasury_id := 1 }

/-- A balance object holding less than `exPend.amount`. -/
def exB100 : TreasuryBalance := { balance := 100, treasury_id := 1 }

/-- A balance object holding less than any transfer amount used in the examples. -/
def exB10 : TreasuryBalance := { balance := 10, treasury_id := 1 }

/-- A successful `tblGet` returns a stored entry. -/
theorem tblGet_mem {α β : Type} [DecidableEq α] {l : List (α × β)} {k : α} {v : β}
    (h : tblGet l k = some v) : (k, v) ∈ l := by
  unfold tblGet at h
  cases hf : l.find? (fun q => decide (q.1 = k)) with
  | none => rw [hf] at h; cases h
  | some w =>
    rw [hf] at h
    have hwk : w.1 = k := by
      have h1 := List.find?_some hf
      simpa using h1
    have hwm : w ∈ l := List.mem_of_find?_eq_some hf
    have hv : w.2 = v := Option.some.inj h
    have : (k, v) = w := by
      cases w with
      | mk a b => simp_all
    rw [this]
    exact hwm

/-- `tblSet` preserves an entry-wise predicate when the new value satisfies it. -/
theorem tblSet_forall {α β : Type} [DecidableEq α] {P : α × β → Prop}
    {l : List (α × β)} {k : α} {v : β}
    (hl : ∀ p ∈ l, P p) (hv : P (k, v)) : ∀ p ∈ tblSet l k v, P p := by
  intro p hp
  unfold tblSet at hp
  obtain ⟨q, hq, hqe⟩ := List.mem_map.mp hp
  by_cases hk : q.1 = k
  · rw [if_pos hk] at hqe
    rw [← hqe]
    exact hv
  · rw [if_neg hk] at hqe
    rw [← hqe]
    exact hl q hq

/-- Entries surviving `tblRemove` were stored before. -/
theorem tblRemove_subset {α β : Type} [DecidableEq α] {l : List (α × β)} {k : α}
    {p : α × β} (hp : p ∈ tblRemove l k) : p ∈ l :=
  List.mem_of_mem_filter hp

/-- When no stored key equals `k`, `tblContains` is `false`. -/
theorem tblContains_eq_false {α β : Type} [DecidableEq α] {l : List (α × β)} {k : α}
    (h : ∀ p ∈ l, p.1 ≠ k) : tblContains l k = false := by
  unfold tblContains
  rw [List.any_eq_false]
  intro p hp
  simpa using h p hp

/-- A successful daily roll either resets the window or leaves the treasury as is. -/
theorem update_daily_spending_ok {t : Treasury} {now : Nat} {t1 : Treasury}
    (h : update_daily_spending t now = .ok t1) :
    t1 = { t with daily_spent := 0, last_reset := now } ∨ t1 = t := by
  unfold update_daily_spending at h
  split at h
  · cases h
  · split at h
    · exact Or.inl (Option.some.inj (congrArg Except.toOption h)).symm
    · exact Or.inr (Option.some.inj (congrArg Except.toOption h)).symm

/-- A successful `initialize_treasury` establishes every reachability invariant. -/
theorem initialize_treasury_inv {tid admin cw hw ct ht dl : Nat}
    {signers : List Nat} {mt now : Nat} {t : Treasury} {cap : TreasuryAdminCap}
    {b : TreasuryBalance} {ev : List Event}
    (h : initialize_treasury tid admin cw hw ct ht dl signers mt now =
      .ok (t, cap, b, ev)) : TreasuryInv t := by
  unfold initialize_treasury at h
  split at h
  · simp at h
  · split at h
    · simp at h
    · split at h
      · simp at h
      · injection h with h1
        injection h1 with h1 h2
        subst h1
        refine ⟨Nat.zero_le _, ?_, ?_⟩
        · intro p hp
          simp at hp
        · intro p hp
          simp at hp

/-- `allocate_agent_budget` preserves the reachability invariants. -/
theorem allocate_agent_budget_inv {t : Treasury} {agent_id : String}
    {amount security_level duration_ms : Nat} {admin_cap : TreasuryAdminCap}
    {now : Nat} {r : Treasury × AgentCap × List Event}
    (h : allocate_agent_budget t agent_id amount security_level duration_ms
      admin_cap now = .ok r)
    (ht : TreasuryInv t) : TreasuryInv r.1 := by
  unfold allocate_agent_budget at h
  split at h
  · simp at h
  · split at h
    · simp at h
    · split at h
      · simp at h
      · rename_i t1 hupd
        split at h
        · simp at h
        · split at h
          · simp at h
          · rename_i hlim hdup
            rw [not_not] at hlim
            injection h with h1
            subst h1
            obtain ⟨hd, ha, hp⟩ := ht
            have ht1 : t1.daily_limit = t.daily_limit ∧
                t1.agent_allocations = t.agent_allocations ∧
                t1.pending_approvals = t.pending_approvals ∧
                t1.approval_counter = t.approval_counter := by
              rcases update_daily_spending_ok hupd with h2 | h2 <;> subst h2 <;>
                exact ⟨rfl, rfl, rfl, rfl⟩
            obtain ⟨hq1, hq2, hq3, hq4⟩ := ht1
            refine ⟨hlim, ?_, ?_⟩
            · intro p hpm
              simp only [List.mem_cons] at hpm
              rcases hpm with h3 | h3
              · subst h3
                exact Nat.zero_le _
              · rw [hq2] at h3
                exact ha p h3
            · intro p hpm
              simp only at hpm
              rw [hq3] at hpm
              rw [hq4]
              exact hp p hpm

/-- Complete description of a successful `create_pending_approval`. -/
theorem create_pending_approval_ok {t : Treasury} {amount recipient req : Nat}
    {memo : String} {now : Nat} {t1 : Treasury} {aid : Nat} {evs : List Event}
    (h : create_pending_approval t amount recipient req memo now = .ok (t1, aid, evs)) :
    tblContains t.pending_approvals t.approval_counter = false ∧
    aid = t.approval_counter ∧
    t1 = { t with
           approval_counter := t.approval_counter + 1,
           pending_approvals :=
             (t.approval_counter,
              { id := t.approval_counter, amount := amount, recipient := recipient,
                approvals := [], required_approvals := req, created_at := now,
                expires_at := now + 86400000,
                memo := memo }) :: t.pending_approvals } ∧
    evs = [Event.approvalRequested t.tid t.approval_counter amount recipient req] := by
  simp only [create_pending_approval] at h
  split at h
  · simp at h
  · rename_i hc
    injection h with h1
    injection h1 with h1 h2
    injection h2 with h2 h3
    exact ⟨by simpa using hc, h2.symm, h1.symm, h3.symm⟩

/-- `agent_transfer` preserves the reachability invariants. -/
theorem agent_transfer_inv {t : Treasury} {b : TreasuryBalance} {cap : AgentCap}
    {recipient amount : Nat} {memo : String} {now : Nat}
    {r : Treasury × TreasuryBalance × List Event × Option Nat}
    (h : agent_transfer t b cap recipient amount memo now = .ok r)
    (ht : TreasuryInv t) : TreasuryInv r.1 := by
  obtain ⟨hd, ha, hp⟩ := ht
  unfold agent_transfer at h
  split at h
  · simp at h
  · split at h
    · simp at h
    · split at h
      · simp at h
      · split at h
        · simp at h
        · split at h
          · simp at h
          · split at h
            · simp at h
            · rename_i allocation halloc
              split at h
              · simp at h
              · rename_i hbudget
                rw [not_not] at hbudget
                split at h
                · -- pending-approval route
                  split at h
                  · simp at h
                  · rename_i t1 aid evs hcreate
                    obtain ⟨-, -, hr1, -⟩ := create_pending_approval_ok hcreate
                    subst hr1
                    injection h with h1
                    subst h1
                    refine ⟨hd, ha, ?_⟩
                    intro p hpm
                    simp only [List.mem_cons] at hpm
                    rcases hpm with h3 | h3
                    · subst h3
                      exact Nat.lt_succ_self _
                    · exact Nat.lt_succ_of_lt (hp p h3)
                · -- immediate route
                  split at h
                  · simp at h
                  · injection h with h1
                    subst h1
                    refine ⟨hd, ?_, hp⟩
                    refine tblSet_forall ha ?_
                    exact hbudget

/-- `approve_transaction` preserves the reachability invariants. -/
theorem approve_transaction_inv {t : Treasury} {b : TreasuryBalance}
    {approval_id approver : Nat} {r : Treasury × TreasuryBalance × List Event}
    (h : approve_transaction t b approval_id approver = .ok r)
    (ht : TreasuryInv t) : TreasuryInv r.1 := by
  obtain ⟨hd, ha, hp⟩ := ht
  simp only [approve_transaction] at h
  split at h
  · simp at h
  · split at h
    · simp at h
    · rename_i approval hget
      have hkey : approval_id < t.approval_counter :=
        hp (approval_id, approval) (tblGet_mem hget)
      split at h
      · simp at h
      · split at h
        · simp at h
        · split at h
          · split at h
            · simp at h
            · injection h with h1
              subst h1
              refine ⟨hd, ha, ?_⟩
              intro p hpm
              have hpm2 := tblRemove_subset hpm
              exact tblSet_forall hp hkey p hpm2
          · injection h with h1
            subst h1
            refine ⟨hd, ha, ?_⟩
            exact tblSet_forall hp hkey

/-- `deposit` never modifies the treasury object. -/
theorem deposit_treasury_eq {t : Treasury} {b : TreasuryBalance} {amount : Nat}
    {r : Treasury × TreasuryBalance} (h : deposit t b amount = .ok r) : r.1 = t := by
  unfold deposit at h
  split at h
  · simp at h
  · injection h with h1
    subst h1
    rfl

/-- `emergency_stop` only sets the emergency flag. -/
theorem emergency_stop_ok {t : Treasury} {reason : String}
    {admin_cap : TreasuryAdminCap} {sender : Nat} {r : Treasury × List Event}
    (h : emergency_stop t reason admin_cap sender = .ok r) :
    r.1 = { t with emergency_mode := true } := by
  unfold emergency_stop at h
  split at h
  · simp at h
  · injection h with h1
    subst h1
    rfl

/-- `deactivate_emergency` only clears the emergency flag. -/
theorem deactivate_emergency_ok {t : Treasury} {admin_cap : TreasuryAdminCap}
    {t1 : Treasury} (h : deactivate_emergency t admin_cap = .ok t1) :
    t1 = { t with emergency_mode := false } := by
  unfold deactivate_emergency at h
  split at h
  · simp at h
  · exact (Option.some.inj (congrArg Except.toOption h)).symm

/-- Every reachable treasury satisfies the daily-window bound, the
per-allocation budget bound, and pending-key freshness. -/
theorem reachable_inv {s : SysState} (h : Reachable s) : TreasuryInv s.treasury := by
  induction h with
  | init tid admin cw hw ct ht dl signers mt now t cap b ev h =>
    exact initialize_treasury_inv h
  | step_deposit s amount r hs h ih =>
    rw [deposit_treasury_eq h]
    exact ih
  | step_allocate s agent_id amount security_level duration_ms admin_cap now r hs h ih =>
    exact allocate_agent_budget_inv h ih
  | step_transfer s cap recipient amount memo now r hs h ih =>
    exact agent_transfer_inv h ih
  | step_approve s approval_id approver r hs h ih =>
    exact approve_transaction_inv h ih
  | step_freeze s reason admin_cap sender r hs h ih =>
    rw [emergency_stop_ok h]
    exact ih
  | step_unfreeze s admin_cap t hs h ih =>
    rw [deactivate_emergency_ok h]
    exact ih

/-- Routing lemma, approval route: when every pre-check passes and
`amount ≥ cold_threshold`, `agent_transfer` opens a `PendingApproval` under the
current counter, returns its id, and touches neither the allocation table nor
the ledger balance. (`h9` is the counter-freshness every reachable treasury
enjoys, `reachable_inv`.) -/
theorem agent_transfer_pending_spec {t : Treasury} {b : TreasuryBalance}
    {cap : AgentCap} {recipient amount : Nat} {memo : String} {now : Nat}
    {allocation : AgentAllocation}
    (h1 : t.tid = cap.treasury_id) (h2 : t.tid = b.treasury_id)
    (h3 : t.emergency_mode = false) (h4 : amount ≤ cap.max_amount)
    (h5 : now ≤ cap.expires_at)
    (h6 : tblGet t.agent_allocations cap.agent_id = some allocation)
    (h7 : allocation.spent_amount + amount ≤ allocation.allocated_amount)
    (h8 : t.cold_threshold ≤ amount)
    (h9 : tblContains t.pending_approvals t.approval_counter = false) :
    agent_transfer t b cap recipient amount memo now =
      .ok ({ t with
             approval_counter := t.approval_counter + 1,
             pending_approvals :=
               (t.approval_counter,
                { id := t.approval_counter, amount := amount, recipient := recipient,
                  approvals := [], required_approvals := t.multisig_threshold,
                  created_at := now, expires_at := now + 86400000,
                  memo := memo }) :: t.pending_approvals },
           b,
           [Event.approvalRequested t.tid t.approval_counter amount recipient
             t.multisig_threshold],
           some t.approval_counter) := by
  simp [agent_transfer, create_pending_approval, h1, h2, h3, h4, h5, h6, h7, h9,
    ge_iff_le, h8]
  exact h1.symm.trans h2

/-- Routing lemma, immediate route: when every pre-check passes,
`amount < cold_threshold`, and the pooled balance suffices, `agent_transfer`
debits the ledger, bumps the allocation's `spent_amount`, emits the immediate
`FundsTransferred`, and returns no id. -/
theorem agent_transfer_immediate_spec {t : Treasury} {b : TreasuryBalance}
    {cap : AgentCap} {recipient amount : Nat} {memo : String} {now : Nat}
    {allocation : AgentAllocation}
    (h1 : t.tid = cap.treasury_id) (h2 : t.tid = b.treasury_id)
    (h3 : t.emergency_mode = false) (h4 : amount ≤ cap.max_amount)
    (h5 : now ≤ cap.expires_at)
    (h6 : tblGet t.agent_allocations cap.agent_id = some allocation)
    (h7 : allocation.spent_amount + amount ≤ allocation.allocated_amount)
    (h8 : amount < t.cold_threshold)
    (h9 : amount ≤ b.balance) :
    agent_transfer t b cap recipient amount memo now =
      .ok ({ t with
             agent_allocations :=
               tblSet t.agent_allocations cap.agent_id
                 { allocation with
                   spent_amount := allocation.spent_amount + amount } },
           { b with balance := b.balance - amount },
           [Event.fundsTransferred t.tid recipient amount 0 none],
           none) := by
  have h8' : ¬ t.cold_threshold ≤ amount := Nat.not_le_of_lt h8
  simp [agent_transfer, execute_transfer, h1, h2, h3, h4, h5, h6, h7, ge_iff_le,
    h8', h9]
  exact h1.symm.trans h2

/-- Routing lemma, immediate route with a short ledger: when every pre-check
passes and `amount < cold_threshold` but the pooled balance is smaller than
`amount`, the whole call aborts with `E_INSUFFICIENT_BALANCE` from
`execute_transfer`. -/
theorem agent_transfer_immediate_short {t : Treasury} {b : TreasuryBalance}
    {cap : AgentCap} {recipient amount : Nat} {memo : String} {now : Nat}
    {allocation : AgentAllocation}
    (h1 : t.tid = cap.treasury_id) (h2 : t.tid = b.treasury_id)
    (h3 : t.emergency_mode = false) (h4 : amount ≤ cap.max_amount)
    (h5 : now ≤ cap.expires_at)
    (h6 : tblGet t.agent_allocations cap.agent_id = some allocation)
    (h7 : allocation.spent_amount + amount ≤ allocation.allocated_amount)
    (h8 : amount < t.cold_threshold)
    (h9 : b.balance < amount) :
    agent_transfer t b cap recipient amount memo now =
      .error .eInsufficientBalance := by
  have h8' : ¬ t.cold_threshold ≤ amount := Nat.not_le_of_lt h8
  have h9' : ¬ amount ≤ b.balance := Nat.not_le_of_lt h9
  simp [agent_transfer, execute_transfer, h1, h2, h3, h4, h5, h6, h7, ge_iff_le,
    h8', h9']
  exact h1.symm.trans h2

/-- Quorum lemma: when the approve pre-checks pass and the recorded approval
brings the count to `required_approvals`, with a sufficient pooled balance the
call debits the ledger, emits the quorum `FundsTransferred`, and deletes the
pending entry; the allocation table is untouched. -/
theorem approve_transaction_quorum_spec {t : Treasury} {b : TreasuryBalance}
    {approval_id approver : Nat} {approval : PendingApproval}
    (h1 : t.emergency_mode = false)
    (h2 : tblGet t.pending_approvals approval_id = some approval)
    (h3 : approver ∈ t.multisig_signers)
    (h4 : approver ∉ approval.approvals)
    (h5 : approval.required_approvals ≤ approval.approvals.length + 1)
    (h6 : approval.amount ≤ b.balance) :
    approve_transaction t b approval_id approver =
      .ok ({ t with
             pending_approvals :=
               tblRemove
                 (tblSet t.pending_approvals approval_id
                   { approval with approvals := approval.approvals ++ [approver] })
                 approval_id },
           { b with balance := b.balance - approval.amount },
           [Event.approvalProvided t.tid approval_id approver
              (approval.approvals.length + 1),
            Event.fundsTransferred t.tid approval.recipient approval.amount 2
              (some approval_id)]) := by
  simp [approve_transaction, execute_transfer, h1, h2, h3, h4, ge_iff_le, h5, h6]

/-- Quorum lemma, short ledger: when the approve pre-checks pass, the count
reaches `required_approvals`, but the pooled balance is below the pending
amount, the whole call aborts with `E_INSUFFICIENT_BALANCE` — the recorded
approver is rolled back with everything else. -/
theorem approve_transaction_quorum_short {t : Treasury} {b : TreasuryBalance}
    {approval_id approver : Nat} {approval : PendingApproval}
    (h1 : t.emergency_mode = false)
    (h2 : tblGet t.pending_approvals approval_id = some approval)
    (h3 : approver ∈ t.multisig_signers)
    (h4 : approver ∉ approval.approvals)
    (h5 : approval.required_approvals ≤ approval.approvals.length + 1)
    (h6 : b.balance < approval.amount) :
    approve_transaction t b approval_id approver =
      .error .eInsufficientBalance := by
  have h6' : ¬ approval.amount ≤ b.balance := Nat.not_le_of_lt h6
  simp [approve_transaction, execute_transfer, h1, h2, h3, h4, ge_iff_le, h5, h6']

/-- Sub-quorum lemma: when the approve pre-checks pass and the count stays
below `required_approvals`, the approver is recorded and nothing else changes. -/
theorem approve_transaction_record_spec {t : Treasury} {b : TreasuryBalance}
    {approval_id approver : Nat} {approval : PendingApproval}
    (h1 : t.emergency_mode = false)
    (h2 : tblGet t.pending_approvals approval_id = some approval)
    (h3 : approver ∈ t.multisig_signers)
    (h4 : approver ∉ approval.approvals)
    (h5 : approval.approvals.length + 1 < approval.required_approvals) :
    approve_transaction t b approval_id approver =
      .ok ({ t with
             pending_approvals :=
               tblSet t.pending_approvals approval_id
                 { approval with approvals := approval.approvals ++ [approver] } },
           b,
           [Event.approvalProvided t.tid approval_id approver
              (approval.approvals.length + 1)]) := by
  have h5' : ¬ approval.required_approvals ≤ approval.approvals.length + 1 :=
    Nat.not_le_of_lt h5
  simp [approve_transaction, h1, h2, h3, h4, ge_iff_le, h5']

/-- A repeated approver fails with abort code `E_NOT_AUTHORIZED` — the same
code the signer-membership check uses — whether or not they are a signer. -/
theorem approve_transaction_dup {t : Treasury} {b : TreasuryBalance}
    {approval_id approver : Nat} {approval : PendingApproval}
    (h1 : t.emergency_mode = false)
    (h2 : tblGet t.pending_approvals approval_id = some approval)
    (h3 : approver ∈ approval.approvals) :
    approve_transaction t b approval_id approver = .error .eNotAuthorized := by
  by_cases hs : approver ∈ t.multisig_signers
  · simp [approve_transaction, h1, h2, hs, h3]
  · simp [approve_transaction, h1, h2, hs]

/-- Scrubbing keeps every field but the pending table. -/
theorem scrub_tid (t : Treasury) : (scrub t).tid = t.tid := rfl

/-- Scrubbing keeps the emergency flag. -/
theorem scrub_emergency_mode (t : Treasury) :
    (scrub t).emergency_mode = t.emergency_mode := rfl

/-- Scrubbing keeps the signer set. -/
theorem scrub_multisig_signers (t : Treasury) :
    (scrub t).multisig_signers = t.multisig_signers := rfl

/-- Scrubbing keeps the quorum size. -/
theorem scrub_multisig_threshold (t : Treasury) :
    (scrub t).multisig_threshold = t.multisig_threshold := rfl

/-- Scrubbing keeps the routing threshold. -/
theorem scrub_cold_threshold (t : Treasury) :
    (scrub t).cold_threshold = t.cold_threshold := rfl

/-- Scrubbing keeps the daily limit. -/
theorem scrub_daily_limit (t : Treasury) : (scrub t).daily_limit = t.daily_limit := rfl

/-- Scrubbing keeps the daily-spent counter. -/
theorem scrub_daily_spent (t : Treasury) : (scrub t).daily_spent = t.daily_spent := rfl

/-- Scrubbing keeps the window timestamp. -/
theorem scrub_last_reset (t : Treasury) : (scrub t).last_reset = t.last_reset := rfl

/-- Scrubbing keeps the allocation table. -/
theorem scrub_agent_allocations (t : Treasury) :
    (scrub t).agent_allocations = t.agent_allocations := rfl

/-- Scrubbing keeps the approval counter. -/
theorem scrub_approval_counter (t : Treasury) :
    (scrub t).approval_counter = t.approval_counter := rfl

/-- The pending table of a scrubbed treasury is the scrubbed pending table. -/
theorem scrub_pending_approvals (t : Treasury) :
    (scrub t).pending_approvals = t.pending_approvals.map entryScrub := rfl

/-- `scrubPA` is idempotent. -/
theorem scrubPA_idem (p : PendingApproval) : scrubPA (scrubPA p) = scrubPA p := rfl

/-- `entryScrub` absorbs itself under composition. -/
theorem entryScrub_comp : entryScrub ∘ entryScrub = entryScrub := by
  funext p
  rfl

/-- `entryScrub` is idempotent on lists. -/
theorem map_entryScrub_idem (l : List (Nat × PendingApproval)) :
    (l.map entryScrub).map entryScrub = l.map entryScrub := by
  rw [List.map_map]
  rfl

/-- `scrub` is idempotent. -/
theorem scrub_idem (t : Treasury) : scrub (scrub t) = scrub t := by
  simp only [scrub, map_entryScrub_idem]

/-- Looking a key up in a scrubbed table scrubs the lookup result. -/
theorem tblGet_entryScrub (l : List (Nat × PendingApproval)) (k : Nat) :
    tblGet (l.map entryScrub) k = (tblGet l k).map scrubPA := by
  induction l with
  | nil => rfl
  | cons a as ih =>
    by_cases hak : a.1 = k
    · simp [tblGet, entryScrub, List.find?, hak]
    · simpa [tblGet, entryScrub, List.find?, hak] using ih

/-- Key membership ignores scrubbing. -/
theorem tblContains_entryScrub (l : List (Nat × PendingApproval)) (k : Nat) :
    tblContains (l.map entryScrub) k = tblContains l k := by
  induction l with
  | nil => rfl
  | cons a as ih =>
    by_cases hak : a.1 = k
    · simp [tblContains, entryScrub, hak]
    · simpa [tblContains, entryScrub, hak] using ih

/-- Scrubbing commutes with `tblSet`. -/
theorem map_entryScrub_tblSet (l : List (Nat × PendingApproval)) (k : Nat)
    (v : PendingApproval) :
    (tblSet l k v).map entryScrub = tblSet (l.map entryScrub) k (scrubPA v) := by
  unfold tblSet
  rw [List.map_map, List.map_map]
  congr 1
  funext p
  by_cases hak : p.1 = k
  · simp [Function.comp, entryScrub, hak]
  · simp [Function.comp, entryScrub, hak]

/-- Scrubbing commutes with `tblRemove`. -/
theorem map_entryScrub_tblRemove (l : List (Nat × PendingApproval)) (k : Nat) :
    (tblRemove l k).map entryScrub = tblRemove (l.map entryScrub) k := by
  unfold tblRemove
  rw [List.filter_map]
  rfl

/-- `scrubPA` only changes the `expires_at` field. -/
theorem scrubPA_fields (p : PendingApproval) :
    (scrubPA p).id = p.id ∧ (scrubPA p).amount = p.amount ∧
    (scrubPA p).recipient = p.recipient ∧ (scrubPA p).approvals = p.approvals ∧
    (scrubPA p).required_approvals = p.required_approvals ∧
    (scrubPA p).memo = p.memo := ⟨rfl, rfl, rfl, rfl, rfl, rfl⟩

/-- `approve_transaction` never reads a pending approval's `expires_at`: its
outcome on a scrubbed treasury is the scrubbed outcome on the original. -/
theorem approve_transaction_scrub (t : Treasury) (b : TreasuryBalance)
    (approval_id approver : Nat) :
    (approve_transaction (scrub t) b approval_id approver).map
        (fun r => (scrub r.1, r.2)) =
    (approve_transaction t b approval_id approver).map
        (fun r => (scrub r.1, r.2)) := by
  simp only [approve_transaction, scrub_emergency_mode, scrub_pending_approvals,
    scrub_multisig_signers, scrub_tid, tblGet_entryScrub]
  by_cases he : t.emergency_mode
  · simp [he]
  · have he' : t.emergency_mode = false := by simpa using he
    simp only [he', if_false, Bool.false_eq_true]
    cases hget : tblGet t.pending_approvals approval_id with
    | none => simp
    | some p =>
      simp only [Option.map_some']
      by_cases hs : approver ∈ t.multisig_signers
      · by_cases hdup : approver ∈ p.approvals
        · simp [hs, hdup, scrubPA]
        · have hdup2 : approver ∉ (scrubPA p).approvals := hdup
          by_cases hq : p.required_approvals ≤ p.approvals.length + 1
          · have hq2 : (scrubPA p).required_approvals ≤
                (scrubPA p).approvals.length + 1 := hq
            cases hex : execute_transfer b p.recipient p.amount with
            | error e =>
              have hex2 : execute_transfer b (scrubPA p).recipient
                  (scrubPA p).amount = .error e := hex
              simp [hs, hdup, hdup2, hq, hq2, hex, hex2, he', scrubPA, scrub,
                Except.map, map_entryScrub_tblSet, map_entryScrub_tblRemove,
                map_entryScrub_idem, entryScrub_comp]
            | ok b1 =>
              have hex2 : execute_transfer b (scrubPA p).recipient
                  (scrubPA p).amount = .ok b1 := hex
              simp [hs, hdup, hdup2, hq, hq2, hex, hex2, he', scrubPA, scrub,
                Except.map, map_entryScrub_tblSet, map_entryScrub_tblRemove,
                map_entryScrub_idem, entryScrub_comp]
          · have hq2 : ¬ (scrubPA p).required_approvals ≤
                (scrubPA p).approvals.length + 1 := hq
            simp [hs, hdup, hdup2, hq, hq2, he', scrubPA, scrub, Except.map,
              map_entryScrub_tblSet, map_entryScrub_idem, entryScrub_comp]
      · simp [hs]

/-- `agent_transfer` never reads a pending approval's `expires_at`. -/
theorem agent_transfer_scrub (t : Treasury) (b : TreasuryBalance) (cap : AgentCap)
    (recipient amount : Nat) (memo : String) (now : Nat) :
    (agent_transfer (scrub t) b cap recipient amount memo now).map
        (fun r => (scrub r.1, r.2)) =
    (agent_transfer t b cap recipient amount memo now).map
        (fun r => (scrub r.1, r.2)) := by
  simp only [agent_transfer, create_pending_approval, scrub_tid,
    scrub_emergency_mode, scrub_agent_allocations, scrub_cold_threshold,
    scrub_multisig_threshold, scrub_approval_counter, scrub_pending_approvals,
    tblContains_entryScrub]
  by_cases h1 : t.tid = cap.treasury_id
  · by_cases h2 : t.tid = b.treasury_id
    · have h2' : cap.treasury_id = b.treasury_id := h1.symm.trans h2
      by_cases h3 : t.emergency_mode
      · simp [h1, h2, h3]
      · have h3' : t.emergency_mode = false := by simpa using h3
        by_cases h4 : amount ≤ cap.max_amount
        · by_cases h5 : now ≤ cap.expires_at
          · cases hga : tblGet t.agent_allocations cap.agent_id with
            | none => simp [h1, h2, h2', h3', h4, h5, hga]
            | some allocation =>
              by_cases h7 : allocation.spent_amount + amount ≤
                  allocation.allocated_amount
              · by_cases h8 : t.cold_threshold ≤ amount
                · by_cases h9 : tblContains t.pending_approvals t.approval_counter
                  · simp [h1, h2, h2', h3', h4, h5, hga, h7, ge_iff_le, h8, h9]
                  · simp [h1, h2, h2', h3', h4, h5, hga, h7, ge_iff_le, h8, h9,
                      scrub, Except.map, entryScrub, scrubPA, map_entryScrub_idem,
                      entryScrub_comp]
                · cases hex : execute_transfer b recipient amount with
                  | error e =>
                    simp [h1, h2, h2', h3', h4, h5, hga, h7, ge_iff_le, h8, hex,
                      Except.map]
                  | ok b1 =>
                    simp [h1, h2, h2', h3', h4, h5, hga, h7, ge_iff_le, h8, hex,
                      scrub, Except.map, map_entryScrub_idem, entryScrub_comp]
              · simp [h1, h2, h2', h3', h4, h5, hga, h7]
          · simp [h1, h2, h2', h3', h4, h5]
        · simp [h1, h2, h2', h3', h4]
    · have h2'' : ¬ cap.treasury_id = b.treasury_id := fun hh => h2 (h1.trans hh)
      simp [h1, h2, h2'']
  · simp [h1]

/-- `allocate_agent_budget` never reads a pending approval's `expires_at`. -/
theorem allocate_agent_budget_scrub (t : Treasury) (agent_id : String)
    (amount security_level duration_ms : Nat) (admin_cap : TreasuryAdminCap)
    (now : Nat) :
    (allocate_agent_budget (scrub t) agent_id amount security_level duration_ms
        admin_cap now).map (fun r => (scrub r.1, r.2)) =
    (allocate_agent_budget t agent_id amount security_level duration_ms
        admin_cap now).map (fun r => (scrub r.1, r.2)) := by
  simp only [allocate_agent_budget, update_daily_spending, scrub_tid,
    scrub_emergency_mode, scrub_last_reset, scrub_daily_spent, scrub_daily_limit,
    scrub_agent_allocations, scrub_pending_approvals]
  by_cases h1 : t.tid = admin_cap.treasury_id
  · by_cases h2 : t.emergency_mode
    · simp [h1, h2]
    · have h2' : t.emergency_mode = false := by simpa using h2
      by_cases h3 : now < t.last_reset
      · simp [h1, h2', h3]
      · by_cases h4 : 86400000 ≤ now - t.last_reset
        · by_cases h5 : amount ≤ t.daily_limit
          · by_cases h6 : tblContains t.agent_allocations agent_id
            · simp [h1, h2', h3, ge_iff_le, h4, h5, h6, scrub_daily_spent,
                scrub_daily_limit, scrub_agent_allocations]
            · simp [h1, h2', h3, ge_iff_le, h4, h5, h6, scrub, Except.map,
                map_entryScrub_idem, entryScrub_comp]
          · simp [h1, h2', h3, ge_iff_le, h4, h5, scrub_daily_spent,
              scrub_daily_limit]
        · by_cases h5 : t.daily_spent + amount ≤ t.daily_limit
          · by_cases h6 : tblContains t.agent_allocations agent_id
            · simp [h1, h2', h3, ge_iff_le, h4, h5, h6, scrub_daily_spent,
                scrub_daily_limit, scrub_agent_allocations]
            · simp [h1, h2', h3, ge_iff_le, h4, h5, h6, scrub, Except.map,
                map_entryScrub_idem, entryScrub_comp]
          · simp [h1, h2', h3, ge_iff_le, h4, h5, scrub_daily_spent,
              scrub_daily_limit]
  · simp [h1]

/-- `deposit` never reads a pending approval's `expires_at`. -/
theorem deposit_scrub (t : Treasury) (b : TreasuryBalance) (amount : Nat) :
    (deposit (scrub t) b amount).map (fun r => (scrub r.1, r.2)) =
    (deposit t b amount).map (fun r => (scrub r.1, r.2)) := by
  simp only [deposit, scrub_tid]
  by_cases h : t.tid = b.treasury_id
  · simp [h, scrub_idem, Except.map]
  · simp [h]

/-- `emergency_stop` never reads a pending approval's `expires_at`. -/
theorem emergency_stop_scrub (t : Treasury) (reason : String)
    (admin_cap : TreasuryAdminCap) (sender : Nat) :
    (emergency_stop (scrub t) reason admin_cap sender).map
        (fun r => (scrub r.1, r.2)) =
    (emergency_stop t reason admin_cap sender).map (fun r => (scrub r.1, r.2)) := by
  simp only [emergency_stop, scrub_tid]
  by_cases h : t.tid = admin_cap.treasury_id
  · simp [h, scrub, Except.map, map_entryScrub_idem, entryScrub_comp]
  · simp [h]

/-- `deactivate_emergency` never reads a pending approval's `expires_at`. -/
theorem deactivate_emergency_scrub (t : Treasury) (admin_cap : TreasuryAdminCap) :
    (deactivate_emergency (scrub t) admin_cap).map scrub =
    (deactivate_emergency t admin_cap).map scrub := by
  simp only [deactivate_emergency, scrub_tid]
  by_cases h : t.tid = admin_cap.treasury_id
  · simp [h, scrub, Except.map, map_entryScrub_idem, entryScrub_comp]
  · simp [h]

/-- Removing a key makes its lookup come back empty. -/
theorem tblGet_tblRemove_self {α β : Type} [DecidableEq α] (l : List (α × β))
    (k : α) : tblGet (tblRemove l k) k = none := by
  induction l with
  | nil => rfl
  | cons a as ih =>
    by_cases hak : a.1 = k
    · simpa [tblGet, tblRemove, List.filter_cons, hak] using ih
    · simpa [tblGet, tblRemove, List.filter_cons, List.find?, hak] using ih

/-- Counter freshness gives the `table::add` precondition of
`create_pending_approval`. -/
theorem pendingFresh_contains_false {t : Treasury} (h : pendingFresh t) :
    tblContains t.pending_approvals t.approval_counter = false :=
  tblContains_eq_false (fun p hp => Nat.ne_of_lt (h p hp))

/-- While frozen, `allocate_agent_budget` fails with `E_EMERGENCY_MODE_ACTIVE`
(once the admin capability binds). -/
theorem allocate_agent_budget_frozen {t : Treasury} {agent_id : String}
    {amount security_level duration_ms : Nat} {admin_cap : TreasuryAdminCap}
    {now : Nat} (h1 : t.tid = admin_cap.treasury_id) (h2 : t.emergency_mode = true) :
    allocate_agent_budget t agent_id amount security_level duration_ms admin_cap
      now = .error .eEmergencyModeActive := by
  simp [allocate_agent_budget, h1, h2]

/-- While frozen, `agent_transfer` fails with `E_EMERGENCY_MODE_ACTIVE`
(once the instance bindings pass). -/
theorem agent_transfer_frozen {t : Treasury} {b : TreasuryBalance} {cap : AgentCap}
    {recipient amount : Nat} {memo : String} {now : Nat}
    (h1 : t.tid = cap.treasury_id) (h2 : t.tid = b.treasury_id)
    (h3 : t.emergency_mode = true) :
    agent_transfer t b cap recipient amount memo now =
      .error .eEmergencyModeActive := by
  have h2' : cap.treasury_id = b.treasury_id := h1.symm.trans h2
  simp [agent_transfer, h1, h2, h2', h3]

/-- While frozen, `approve_transaction` fails with `E_EMERGENCY_MODE_ACTIVE`
unconditionally (it is the first check). -/
theorem approve_transaction_frozen {t : Treasury} {b : TreasuryBalance}
    {approval_id approver : Nat} (h : t.emergency_mode = true) :
    approve_transaction t b approval_id approver = .error .eEmergencyModeActive := by
  simp [approve_transaction, h]

/-- `deposit` on a matching balance object always succeeds and adds the amount;
there is no emergency-mode check. -/
theorem deposit_spec {t : Treasury} {b : TreasuryBalance} {amount : Nat}
    (h : t.tid = b.treasury_id) :
    deposit t b amount = .ok (t, { b with balance := b.balance + amount }) := by
  simp [deposit, h]

/-- A second allocation for an agent id that already has one aborts inside
`table::add` with the `sui::dynamic_field` duplicate-field abort (the
`DuplicateAgentAllocation` failure of the specification), provided the earlier
authorization, emergency, and daily-limit checks pass. -/
theorem allocate_agent_budget_dup {t : Treasury} {agent_id : String}
    {amount security_level duration_ms : Nat} {admin_cap : TreasuryAdminCap}
    {now : Nat} (h1 : t.tid = admin_cap.treasury_id) (h2 : t.emergency_mode = false)
    (h3 : t.last_reset ≤ now) (h4 : t.daily_spent + amount ≤ t.daily_limit)
    (h5 : tblContains t.agent_allocations agent_id = true) :
    allocate_agent_budget t agent_id amount security_level duration_ms admin_cap
      now = .error .eFieldAlreadyExists := by
  have h3' : ¬ now < t.last_reset := Nat.not_lt.mpr h3
  by_cases hroll : 86400000 ≤ now - t.last_reset
  · have h4' : amount ≤ t.daily_limit := le_trans (Nat.le_add_left _ _) h4
    simp [allocate_agent_budget, update_daily_spending, h1, h2, h3', ge_iff_le,
      hroll, h4', h5]
  · simp [allocate_agent_budget, update_daily_spending, h1, h2, h3', ge_iff_le,
      hroll, h4, h5]

/-- **C1** (amended): for every `agent_transfer` on an unfrozen treasury that
passes the capability-binding, max-amount, expiry, known-agent, and
per-allocation budget checks (on a treasury whose pending keys are fresh, as
every reachable one is — `reachable_inv`): if `amount ≥ cold_threshold` a
`PendingApproval` is created and its id returned, with `spent_amount` and the
ledger untouched; otherwise, **provided the ledger balance is at least
`amount`**, the balance decreases by `amount`, `spent_amount` increases by
`amount`, the immediate `FundsTransferred` is emitted and no id is returned —
and when the balance is smaller than `amount` the immediate route instead
aborts with `E_INSUFFICIENT_BALANCE`. -/
theorem C1_transfer_routing {t : Treasury} {b : TreasuryBalance} {cap : AgentCap}
    {recipient amount : Nat} {memo : String} {now : Nat}
    {allocation : AgentAllocation}
    (h1 : t.tid = cap.treasury_id) (h2 : t.tid = b.treasury_id)
    (h3 : t.emergency_mode = false) (h4 : amount ≤ cap.max_amount)
    (h5 : now ≤ cap.expires_at)
    (h6 : tblGet t.agent_allocations cap.agent_id = some allocation)
    (h7 : allocation.spent_amount + amount ≤ allocation.allocated_amount)
    (h9 : tblContains t.pending_approvals t.approval_counter = false) :
    (t.cold_threshold ≤ amount →
      agent_transfer t b cap recipient amount memo now =
        .ok ({ t with
               approval_counter := t.approval_counter + 1,
               pending_approvals :=
                 (t.approval_counter,
                  { id := t.approval_counter, amount := amount,
                    recipient := recipient, approvals := [],
                    required_approvals := t.multisig_threshold, created_at := now,
                    expires_at := now + 86400000,
                    memo := memo }) :: t.pending_approvals },
             b,
             [Event.approvalRequested t.tid t.approval_counter amount recipient
               t.multisig_threshold],
             some t.approval_counter)) ∧
    (amount < t.cold_threshold → amount ≤ b.balance →
      agent_transfer t b cap recipient amount memo now =
        .ok ({ t with
               agent_allocations :=
                 tblSet t.agent_allocations cap.agent_id
                   { allocation with
                     spent_amount := allocation.spent_amount + amount } },
             { b with balance := b.balance - amount },
             [Event.fundsTransferred t.tid recipient amount 0 none],
             none)) ∧
    (amount < t.cold_threshold → b.balance < amount →
      agent_transfer t b cap recipient amount memo now =
        .error .eInsufficientBalance) :=
  ⟨fun h8 => agent_transfer_pending_spec h1 h2 h3 h4 h5 h6 h7 h8 h9,
   fun h8 h10 => agent_transfer_immediate_spec h1 h2 h3 h4 h5 h6 h7 h8 h10,
   fun h8 h10 => agent_transfer_immediate_short h1 h2 h3 h4 h5 h6 h7 h8 h10⟩

/-- Witness for `C1_transfer_routing` at the concrete state `exT`/`exB`:
150 ≥ the threshold 100, so a pending approval with id 1 opens and nothing is
debited. -/
theorem C1_transfer_routing_witness :
    agent_transfer exT exB exCap 42 150 "m" 5 =
      .ok ({ exT with
             approval_counter := 2,
             pending_approvals :=
               (1, { id := 1, amount := 150, recipient := 42, approvals := [],
                     required_approvals := 2, created_at := 5,
                     expires_at := 86400005, memo := "m" }) ::
                 exT.pending_approvals },
           exB,
           [Event.approvalRequested 1 1 150 42 2], some 1) :=
  (C1_transfer_routing (show exT.tid = exCap.treasury_id from rfl)
    (show exT.tid = exB.treasury_id from rfl)
    (show exT.emergency_mode = false from rfl)
    (show (150 : Nat) ≤ exCap.max_amount by decide)
    (show (5 : Nat) ≤ exCap.expires_at by decide)
    (show tblGet exT.agent_allocations exCap.agent_id = some exAlloc from rfl)
    (show exAlloc.spent_amount + 150 ≤ exAlloc.allocated_amount by decide)
    (show tblContains exT.pending_approvals exT.approval_counter = false from
      rfl)).1
    (show exT.cold_threshold ≤ 150 by decide)

/-- Counterexample to C1 as stated: at `exT` with only 10 in the ledger, the
call `agent_transfer …, 40, …` passes every check the claim lists and routes to
the immediate branch (40 < 100), yet the balance does not decrease — the whole
call aborts with `E_INSUFFICIENT_BALANCE`. -/
theorem C1_counterexample :
    exT.tid = exCap.treasury_id ∧ exT.tid = exB10.treasury_id ∧
    exT.emergency_mode = false ∧ (40 : Nat) ≤ exCap.max_amount ∧
    (5 : Nat) ≤ exCap.expires_at ∧
    tblGet exT.agent_allocations exCap.agent_id = some exAlloc ∧
    exAlloc.spent_amount + 40 ≤ exAlloc.allocated_amount ∧
    40 < exT.cold_threshold ∧
    agent_transfer exT exB10 exCap 42 40 "m" 5 = .error .eInsufficientBalance :=
  ⟨rfl, rfl, rfl, by decide, by decide, rfl, by decide, by decide, rfl⟩

/-- **C2** (amended): an `approve_transaction` that passes the frozen,
existence, signer-membership and duplicate-approver checks and brings the
count to `required_approvals`, **provided the pooled balance covers the pending
amount**, debits the ledger, emits the quorum `FundsTransferred`, and deletes
the `PendingApproval`; no allocation's `spent_amount` changes (the allocation
table is carried over unchanged in the result). -/
theorem C2_approve_quorum {t : Treasury} {b : TreasuryBalance}
    {approval_id approver : Nat} {approval : PendingApproval}
    (h1 : t.emergency_mode = false)
    (h2 : tblGet t.pending_approvals approval_id = some approval)
    (h3 : approver ∈ t.multisig_signers)
    (h4 : approver ∉ approval.approvals)
    (h5 : approval.required_approvals ≤ approval.approvals.length + 1)
    (h6 : approval.amount ≤ b.balance) :
    approve_transaction t b approval_id approver =
      .ok ({ t with
             pending_approvals :=
               tblRemove
                 (tblSet t.pending_approvals approval_id
                   { approval with approvals := approval.approvals ++ [approver] })
                 approval_id },
           { b with balance := b.balance - approval.amount },
           [Event.approvalProvided t.tid approval_id approver
              (approval.approvals.length + 1),
            Event.fundsTransferred t.tid approval.recipient approval.amount 2
              (some approval_id)]) ∧
    tblGet
      (tblRemove
        (tblSet t.pending_approvals approval_id
          { approval with approvals := approval.approvals ++ [approver] })
        approval_id) approval_id = none :=
  ⟨approve_transaction_quorum_spec h1 h2 h3 h4 h5 h6, tblGet_tblRemove_self _ _⟩

/-- Witness for `C2_approve_quorum`: at `exT1` (signer 7 already recorded),
signer 8's approval reaches the quorum of 2, debits 150 of the 500, and removes
pending entry 0. -/
theorem C2_approve_quorum_witness :
    approve_transaction exT1 exB 0 8 =
      .ok ({ exT1 with pending_approvals := [] },
           { balance := 350, treasury_id := 1 },
           [Event.approvalProvided 1 0 8 2,
            Event.fundsTransferred 1 42 150 2 (some 0)]) :=
  (C2_approve_quorum (show exT1.emergency_mode = false from rfl)
    (show tblGet exT1.pending_approvals 0 = some exPend1 from rfl)
    (show (8 : Nat) ∈ exT1.multisig_signers by decide)
    (show (8 : Nat) ∉ exPend1.approvals by decide)
    (show exPend1.required_approvals ≤ exPend1.approvals.length + 1 by decide)
    (show exPend1.amount ≤ exB.balance by decide)).1

/-- Counterexample to C2 as stated: at `exT1` with only 100 in the ledger,
signer 8's approval passes all four checks the claim lists and reaches the
quorum, yet the balance is not debited and the entry is not deleted — the call
aborts with `E_INSUFFICIENT_BALANCE`. -/
theorem C2_counterexample :
    exT1.emergency_mode = false ∧
    tblGet exT1.pending_approvals 0 = some exPend1 ∧
    (8 : Nat) ∈ exT1.multisig_signers ∧ (8 : Nat) ∉ exPend1.approvals ∧
    exPend1.required_approvals ≤ exPend1.approvals.length + 1 ∧
    approve_transaction exT1 exB100 0 8 = .error .eInsufficientBalance :=
  ⟨rfl, rfl, by decide, by decide, by decide, rfl⟩

/-- **C3** (amended): while the emergency flag is set, `allocate_agent_budget`,
`agent_transfer` and `approve_transaction` fail with
`E_EMERGENCY_MODE_ACTIVE` (once the instance-binding checks pass; `approve`
unconditionally) and leave treasury and balance unchanged — but `deposit` is
not gated by the flag: it succeeds and increases the pooled balance even while
frozen. -/
theorem C3_frozen_behavior (t : Treasury) (b : TreasuryBalance)
    (agent_id : String) (amount security_level duration_ms : Nat)
    (admin_cap : TreasuryAdminCap) (cap : AgentCap) (recipient tamount : Nat)
    (memo : String) (now approval_id approver damount : Nat)
    (hf : t.emergency_mode = true)
    (h1 : t.tid = admin_cap.treasury_id) (h2 : t.tid = cap.treasury_id)
    (h3 : t.tid = b.treasury_id) :
    allocate_agent_budget t agent_id amount security_level duration_ms admin_cap
      now = .error .eEmergencyModeActive ∧
    agent_transfer t b cap recipient tamount memo now =
      .error .eEmergencyModeActive ∧
    approve_transaction t b approval_id approver = .error .eEmergencyModeActive ∧
    runAllocate ⟨t, b⟩ agent_id amount security_level duration_ms admin_cap now =
      ⟨t, b⟩ ∧
    runTransfer ⟨t, b⟩ cap recipient tamount memo now = ⟨t, b⟩ ∧
    runApprove ⟨t, b⟩ approval_id approver = ⟨t, b⟩ ∧
    deposit t b damount = .ok (t, { b with balance := b.balance + damount }) := by
  have ha : allocate_agent_budget t agent_id amount security_level duration_ms
      admin_cap now = .error .eEmergencyModeActive :=
    allocate_agent_budget_frozen h1 hf
  have htr : agent_transfer t b cap recipient tamount memo now =
      .error .eEmergencyModeActive :=
    agent_transfer_frozen h2 h3 hf
  have hap : approve_transaction t b approval_id approver =
      .error .eEmergencyModeActive :=
    approve_transaction_frozen hf
  refine ⟨ha, htr, hap, ?_, ?_, ?_, deposit_spec h3⟩
  · simp [runAllocate, ha]
  · simp [runTransfer, htr]
  · simp [runApprove, hap]

/-- Witness for `C3_frozen_behavior` at the frozen concrete state. -/
theorem C3_frozen_behavior_witness :
    allocate_agent_budget exTFrozen "Z" 10 0 10 exAdminCap 5 =
      .error .eEmergencyModeActive ∧
    agent_transfer exTFrozen exB exCap 42 40 "m" 5 =
      .error .eEmergencyModeActive ∧
    approve_transaction exTFrozen exB 0 7 = .error .eEmergencyModeActive := by
  have h := C3_frozen_behavior exTFrozen exB "Z" 10 0 10 exAdminCap exCap 42 40
    "m" 5 0 7 1 rfl rfl rfl rfl
  exact ⟨h.1, h.2.1, h.2.2.1⟩

/-- Counterexample to C3 as stated: `deposit` is a mutating operation, yet on
the frozen treasury it succeeds and changes the pooled balance from 500 to 505
instead of being a no-op or an error. -/
theorem C3_counterexample :
    is_emergency_mode exTFrozen = true ∧
    deposit exTFrozen exB 5 =
      .ok (exTFrozen, { balance := 505, treasury_id := 1 }) :=
  ⟨rfl, rfl⟩

/-- **C4**: every entry point is all-or-nothing. A failing call commits
nothing (the `run…` observable post-state equals the pre-state for every
erroring call of every operation), and in particular an approval that reaches
quorum but fails the balance check aborts as a whole with
`E_INSUFFICIENT_BALANCE`: the just-recorded approver is not retained, as the
surviving pending entry still shows the original approval count. -/
theorem C4_all_or_nothing {t : Treasury} {b : TreasuryBalance}
    {approval_id approver : Nat} {approval : PendingApproval}
    (h1 : t.emergency_mode = false)
    (h2 : tblGet t.pending_approvals approval_id = some approval)
    (h3 : approver ∈ t.multisig_signers) (h4 : approver ∉ approval.approvals)
    (h5 : approval.required_approvals ≤ approval.approvals.length + 1)
    (h6 : b.balance < approval.amount) :
    approve_transaction t b approval_id approver = .error .eInsufficientBalance ∧
    runApprove ⟨t, b⟩ approval_id approver = ⟨t, b⟩ ∧
    get_pending_approval (runApprove ⟨t, b⟩ approval_id approver).treasury
        approval_id =
      some (approval.amount, approval.recipient, approval.approvals.length,
        approval.required_approvals) ∧
    (∀ s amount e, deposit s.treasury s.bal amount = .error e →
      runDeposit s amount = s) ∧
    (∀ s agent_id amount lvl dur ac now e,
      allocate_agent_budget s.treasury agent_id amount lvl dur ac now = .error e →
      runAllocate s agent_id amount lvl dur ac now = s) ∧
    (∀ s cap recipient amount memo now e,
      agent_transfer s.treasury s.bal cap recipient amount memo now = .error e →
      runTransfer s cap recipient amount memo now = s) ∧
    (∀ s aid ap e, approve_transaction s.treasury s.bal aid ap = .error e →
      runApprove s aid ap = s) ∧
    (∀ s reason ac sender e, emergency_stop s.treasury reason ac sender = .error e →
      runFreeze s reason ac sender = s) ∧
    (∀ s ac e, deactivate_emergency s.treasury ac = .error e →
      runUnfreeze s ac = s) := by
  have hshort := approve_transaction_quorum_short h1 h2 h3 h4 h5 h6
  have hrun : runApprove ⟨t, b⟩ approval_id approver = ⟨t, b⟩ := by
    simp [runApprove, hshort]
  refine ⟨hshort, hrun, ?_, ?_, ?_, ?_, ?_, ?_, ?_⟩
  · rw [hrun]
    simp [get_pending_approval, h2]
  · intro s amount e h
    simp [runDeposit, h]
  · intro s agent_id amount lvl dur ac now e h
    simp [runAllocate, h]
  · intro s cap recipient amount memo now e h
    simp [runTransfer, h]
  · intro s aid ap e h
    simp [runApprove, h]
  · intro s reason ac sender e h
    simp [runFreeze, h]
  · intro s ac e h
    simp [runUnfreeze, h]

/-- Witness for `C4_all_or_nothing`: the quorum-reaching approval by signer 8
over a 100-coin ledger fails whole; the state is untouched. -/
theorem C4_all_or_nothing_witness :
    approve_transaction exT1 exB100 0 8 = .error .eInsufficientBalance ∧
    runApprove ⟨exT1, exB100⟩ 0 8 = ⟨exT1, exB100⟩ := by
  have h := C4_all_or_nothing (show exT1.emergency_mode = false from rfl)
    (show tblGet exT1.pending_approvals 0 = some exPend1 from rfl)
    (show (8 : Nat) ∈ exT1.multisig_signers by decide)
    (show (8 : Nat) ∉ exPend1.approvals by decide)
    (show exPend1.required_approvals ≤ exPend1.approvals.length + 1 by decide)
    (show exB100.balance < exPend1.amount by decide)
  exact ⟨h.1, h.2.1⟩

/-- **C5**: in every reachable treasury state, `0 ≤ daily_spent ≤ daily_limit`:
`initialize_treasury` starts the counter at 0, `allocate_agent_budget` raises
it only after the limit check passes, and the lazy 24h roll resets it to 0. -/
theorem C5_daily_window_invariant {s : SysState} (h : Reachable s) :
    0 ≤ s.treasury.daily_spent ∧
      s.treasury.daily_spent ≤ s.treasury.daily_limit :=
  ⟨Nat.zero_le _, (reachable_inv h).1⟩

/-- Witness for `C5_daily_window_invariant` at the freshly initialized
treasury (daily counter 0, limit 1000), reached by `Reachable.init`. -/
theorem C5_daily_window_invariant_witness : (0 : Nat) ≤ 0 ∧ (0 : Nat) ≤ 1000 :=
  C5_daily_window_invariant
    (Reachable.init 1 10 11 12 100 50 1000 [7, 8, 9] 2 0 _ _ _ _ rfl)

/-- **C6**: in every reachable treasury state, every stored `AgentAllocation`
has `spent_amount ≤ allocated_amount`: allocations are created with
`spent_amount = 0` and only the immediate transfer route raises it, after
checking `spent_amount + amount ≤ allocated_amount`. -/
theorem C6_allocation_budget_invariant {s : SysState} (h : Reachable s) :
    ∀ p ∈ s.treasury.agent_allocations,
      p.2.spent_amount ≤ p.2.allocated_amount :=
  (reachable_inv h).2.1

/-- Witness for `C6_allocation_budget_invariant`: after
`initialize_treasury` and one `allocate_agent_budget` of 200 for agent `"A"`,
the stored allocation shows `spent_amount = 0 ≤ 200 = allocated_amount`. -/
theorem C6_allocation_budget_invariant_witness : (0 : Nat) ≤ 200 :=
  C6_allocation_budget_invariant
    (Reachable.step_allocate _ "A" 200 1 1000 ⟨1⟩ 0 _
      (Reachable.init 1 10 11 12 100 50 1000 [7, 8, 9] 2 0 _ _ _ _ rfl) rfl)
    ("A", { agent_id := "A", allocated_amount := 200, spent_amount := 0,
            security_level := 1, created_at := 0, expires_at := 1000 })
    (by decide)

/-- **C7** (amended): a second `approve_transaction` by an identity already in
the approvals set fails — but with abort code `E_NOT_AUTHORIZED` (code 0), the
same constant the signer-membership check uses; the module defines no distinct
DuplicateApprover code — and it changes neither the approval count nor any
other treasury state. -/
theorem C7_duplicate_approver {t : Treasury} {b : TreasuryBalance}
    {approval_id approver : Nat} {approval : PendingApproval}
    (h1 : t.emergency_mode = false)
    (h2 : tblGet t.pending_approvals approval_id = some approval)
    (h3 : approver ∈ approval.approvals) :
    approve_transaction t b approval_id approver = .error .eNotAuthorized ∧
    runApprove ⟨t, b⟩ approval_id approver = ⟨t, b⟩ ∧
    get_pending_approval (runApprove ⟨t, b⟩ approval_id approver).treasury
        approval_id =
      some (approval.amount, approval.recipient, approval.approvals.length,
        approval.required_approvals) := by
  have hd := approve_transaction_dup (b := b) h1 h2 h3
  have hrun : runApprove ⟨t, b⟩ approval_id approver = ⟨t, b⟩ := by
    simp [runApprove, hd]
  refine ⟨hd, hrun, ?_⟩
  rw [hrun]
  simp [get_pending_approval, h2]

/-- Witness for `C7_duplicate_approver`: signer 7 approving pending entry 0 of
`exT1` a second time fails and leaves the state untouched. -/
theorem C7_duplicate_approver_witness :
    approve_transaction exT1 exB 0 7 = .error .eNotAuthorized ∧
    runApprove ⟨exT1, exB⟩ 0 7 = ⟨exT1, exB⟩ := by
  have h := C7_duplicate_approver (b := exB)
    (show exT1.emergency_mode = false from rfl)
    (show tblGet exT1.pending_approvals 0 = some exPend1 from rfl)
    (show (7 : Nat) ∈ exPend1.approvals by decide)
  exact ⟨h.1, h.2.1⟩

/-- Counterexample to C7 as stated: the repeated approval by signer 7 aborts
with `E_NOT_AUTHORIZED` — the very same code an unauthorized (non-signer)
approver like 99 receives — so the failure does not carry a distinct
DuplicateApprover error kind a caller could recognize. -/
theorem C7_counterexample :
    exT1.emergency_mode = false ∧
    tblGet exT1.pending_approvals 0 = some exPend1 ∧
    (7 : Nat) ∈ exPend1.approvals ∧
    (7 : Nat) ∈ exT1.multisig_signers ∧
    (99 : Nat) ∉ exT1.multisig_signers ∧
    approve_transaction exT1 exB 0 7 = .error .eNotAuthorized ∧
    approve_transaction exT1 exB 0 99 = .error .eNotAuthorized :=
  ⟨rfl, rfl, by decide, by decide, by decide, rfl, rfl⟩

/-- **C8**: a second `allocate_agent_budget` for an agent id that already has
an allocation fails — `table::add` aborts with the `sui::dynamic_field`
duplicate-field abort, the failure the specification names
DuplicateAgentAllocation — and neither replaces nor modifies the stored
allocation, provided the call passes the authorization, emergency, clock, and
daily-limit checks that run first. -/
theorem C8_duplicate_allocation {t : Treasury} {b : TreasuryBalance}
    {agent_id : String} {amount security_level duration_ms : Nat}
    {admin_cap : TreasuryAdminCap} {now : Nat}
    (h1 : t.tid = admin_cap.treasury_id) (h2 : t.emergency_mode = false)
    (h3 : t.last_reset ≤ now) (h4 : t.daily_spent + amount ≤ t.daily_limit)
    (h5 : tblContains t.agent_allocations agent_id = true) :
    allocate_agent_budget t agent_id amount security_level duration_ms admin_cap
      now = .error .eFieldAlreadyExists ∧
    runAllocate ⟨t, b⟩ agent_id amount security_level duration_ms admin_cap now =
      ⟨t, b⟩ ∧
    get_agent_allocation
      (runAllocate ⟨t, b⟩ agent_id amount security_level duration_ms admin_cap
        now).treasury agent_id = get_agent_allocation t agent_id := by
  have hd : allocate_agent_budget t agent_id amount security_level duration_ms
      admin_cap now = .error .eFieldAlreadyExists :=
    allocate_agent_budget_dup h1 h2 h3 h4 h5
  have hrun : runAllocate ⟨t, b⟩ agent_id amount security_level duration_ms
      admin_cap now = ⟨t, b⟩ := by
    simp [runAllocate, hd]
  exact ⟨hd, hrun, by rw [hrun]⟩

/-- Witness for `C8_duplicate_allocation`: a second allocation for `"A"` on
`exT` fails with the duplicate-field abort and modifies nothing. -/
theorem C8_duplicate_allocation_witness :
    allocate_agent_budget exT "A" 100 1 1000 exAdminCap 5 =
      .error .eFieldAlreadyExists ∧
    runAllocate ⟨exT, exB⟩ "A" 100 1 1000 exAdminCap 5 = ⟨exT, exB⟩ := by
  have h : allocate_agent_budget exT "A" 100 1 1000 exAdminCap 5 =
        .error .eFieldAlreadyExists ∧
      runAllocate ⟨exT, exB⟩ "A" 100 1 1000 exAdminCap 5 = ⟨exT, exB⟩ ∧
      get_agent_allocation
        (runAllocate ⟨exT, exB⟩ "A" 100 1 1000 exAdminCap 5).treasury "A" =
        get_agent_allocation exT "A" :=
    C8_duplicate_allocation
      (show exT.tid = exAdminCap.treasury_id from rfl)
      (show exT.emergency_mode = false from rfl)
      (show exT.last_reset ≤ 5 by decide)
      (show exT.daily_spent + 100 ≤ exT.daily_limit by decide)
      (show tblContains exT.agent_allocations "A" = true from rfl)
  exact ⟨h.1, h.2.1⟩

/-- **C9**: no operation's outcome depends on a pending approval's
`expires_at`. For any two treasuries equal after scrubbing those fields, every
operation returns the same error or success values with successor states again
equal after scrubbing; and a pending approval can be approved — and, with a
covering balance, executed — with no constraint whatsoever on its
`expires_at` (`approve_transaction` receives no clock at all). -/
theorem C9_expiry_never_consulted {t t' : Treasury} (hsc : scrub t = scrub t') :
    (∀ b approval_id approver,
      (approve_transaction t b approval_id approver).map
          (fun r => (scrub r.1, r.2)) =
        (approve_transaction t' b approval_id approver).map
          (fun r => (scrub r.1, r.2))) ∧
    (∀ b cap recipient amount memo now,
      (agent_transfer t b cap recipient amount memo now).map
          (fun r => (scrub r.1, r.2)) =
        (agent_transfer t' b cap recipient amount memo now).map
          (fun r => (scrub r.1, r.2))) ∧
    (∀ agent_id amount lvl dur admin_cap now,
      (allocate_agent_budget t agent_id amount lvl dur admin_cap now).map
          (fun r => (scrub r.1, r.2)) =
        (allocate_agent_budget t' agent_id amount lvl dur admin_cap now).map
          (fun r => (scrub r.1, r.2))) ∧
    (∀ b amount,
      (deposit t b amount).map (fun r => (scrub r.1, r.2)) =
        (deposit t' b amount).map (fun r => (scrub r.1, r.2))) ∧
    (∀ reason admin_cap sender,
      (emergency_stop t reason admin_cap sender).map
          (fun r => (scrub r.1, r.2)) =
        (emergency_stop t' reason admin_cap sender).map
          (fun r => (scrub r.1, r.2))) ∧
    (∀ admin_cap,
      (deactivate_emergency t admin_cap).map scrub =
        (deactivate_emergency t' admin_cap).map scrub) ∧
    (∀ b approval_id approver approval,
      t.emergency_mode = false →
      tblGet t.pending_approvals approval_id = some approval →
      approver ∈ t.multisig_signers → approver ∉ approval.approvals →
      approval.amount ≤ b.balance →
      ∃ r, approve_transaction t b approval_id approver = .ok r) := by
  refine ⟨?_, ?_, ?_, ?_, ?_, ?_, ?_⟩
  · intro b approval_id approver
    rw [← approve_transaction_scrub t b approval_id approver, hsc,
      approve_transaction_scrub t' b approval_id approver]
  · intro b cap recipient amount memo now
    rw [← agent_transfer_scrub t b cap recipient amount memo now, hsc,
      agent_transfer_scrub t' b cap recipient amount memo now]
  · intro agent_id amount lvl dur admin_cap now
    rw [← allocate_agent_budget_scrub t agent_id amount lvl dur admin_cap now,
      hsc, allocate_agent_budget_scrub t' agent_id amount lvl dur admin_cap now]
  · intro b amount
    rw [← deposit_scrub t b amount, hsc, deposit_scrub t' b amount]
  · intro reason admin_cap sender
    rw [← emergency_stop_scrub t reason admin_cap sender, hsc,
      emergency_stop_scrub t' reason admin_cap sender]
  · intro admin_cap
    rw [← deactivate_emergency_scrub t admin_cap, hsc,
      deactivate_emergency_scrub t' admin_cap]
  · intro b approval_id approver approval h1 h2 h3 h4 h6
    by_cases hq : approval.required_approvals ≤ approval.approvals.length + 1
    · exact ⟨_, approve_transaction_quorum_spec h1 h2 h3 h4 hq h6⟩
    · exact ⟨_, approve_transaction_record_spec h1 h2 h3 h4
        (Nat.lt_of_not_le hq)⟩

/-- Witness for `C9_expiry_never_consulted`: `exT` and the same treasury whose
pending approval 0 already expired (`expires_at = 3`) are indistinguishable to
`approve_transaction`. -/
theorem C9_expiry_never_consulted_witness :
    (approve_transaction exT exB 0 7).map (fun r => (scrub r.1, r.2)) =
      (approve_transaction
        { exT with
          pending_approvals := [(0, { exPend with expires_at := 3 })] }
        exB 0 7).map (fun r => (scrub r.1, r.2)) :=
  (C9_expiry_never_consulted
    (show scrub exT =
        scrub { exT with
          pending_approvals := [(0, { exPend with expires_at := 3 })] }
      from rfl)).1 exB 0 7

/-- **C10**: opening a pending approval never consults the ledger balance —
under the routing hypotheses (with no constraint at all relating `amount` to
`b.balance`) the transfer returns a pending id and leaves the balance object
untouched; the balance is checked only at execution, where a short ledger
makes the quorum-reaching approval, or the immediate route, fail with
`E_INSUFFICIENT_BALANCE`. -/
theorem C10_balance_checked_at_execution {t : Treasury} {b : TreasuryBalance}
    {cap : AgentCap} {recipient amount : Nat} {memo : String} {now : Nat}
    {allocation : AgentAllocation}
    (h1 : t.tid = cap.treasury_id) (h2 : t.tid = b.treasury_id)
    (h3 : t.emergency_mode = false) (h4 : amount ≤ cap.max_amount)
    (h5 : now ≤ cap.expires_at)
    (h6 : tblGet t.agent_allocations cap.agent_id = some allocation)
    (h7 : allocation.spent_amount + amount ≤ allocation.allocated_amount)
    (h8 : t.cold_threshold ≤ amount)
    (h9 : tblContains t.pending_approvals t.approval_counter = false) :
    agent_transfer t b cap recipient amount memo now =
      .ok ({ t with
             approval_counter := t.approval_counter + 1,
             pending_approvals :=
               (t.approval_counter,
                { id := t.approval_counter, amount := amount,
                  recipient := recipient, approvals := [],
                  required_approvals := t.multisig_threshold, created_at := now,
                  expires_at := now + 86400000,
                  memo := memo }) :: t.pending_approvals },
           b,
           [Event.approvalRequested t.tid t.approval_counter amount recipient
             t.multisig_threshold],
           some t.approval_counter) ∧
    (∀ t2 b2 approval_id approver approval2,
      t2.emergency_mode = false →
      tblGet t2.pending_approvals approval_id = some approval2 →
      approver ∈ t2.multisig_signers →
      approver ∉ approval2.approvals →
      approval2.required_approvals ≤ approval2.approvals.length + 1 →
      b2.balance < approval2.amount →
      approve_transaction t2 b2 approval_id approver =
        .error .eInsufficientBalance) ∧
    (∀ t2 b2 cap2 recipient2 amount2 memo2 now2 allocation2,
      t2.tid = cap2.treasury_id → t2.tid = b2.treasury_id →
      t2.emergency_mode = false → amount2 ≤ cap2.max_amount →
      now2 ≤ cap2.expires_at →
      tblGet t2.agent_allocations cap2.agent_id = some allocation2 →
      allocation2.spent_amount + amount2 ≤ allocation2.allocated_amount →
      amount2 < t2.cold_threshold → b2.balance < amount2 →
      agent_transfer t2 b2 cap2 recipient2 amount2 memo2 now2 =
        .error .eInsufficientBalance) := by
  refine ⟨agent_transfer_pending_spec h1 h2 h3 h4 h5 h6 h7 h8 h9, ?_, ?_⟩
  · intro t2 b2 approval_id approver approval2 g1 g2 g3 g4 g5 g6
    exact approve_transaction_quorum_short g1 g2 g3 g4 g5 g6
  · intro t2 b2 cap2 recipient2 amount2 memo2 now2 allocation2 g1 g2 g3 g4 g5 g6
      g7 g8 g9
    exact agent_transfer_immediate_short g1 g2 g3 g4 g5 g6 g7 g8 g9

/-- Witness for `C10_balance_checked_at_execution`: with only 10 in the
ledger, a transfer of 150 (≥ the threshold 100, and far above the balance)
still succeeds and returns pending id 1, leaving the balance at 10. -/
theorem C10_balance_checked_at_execution_witness :
    exB10.balance < 150 ∧
    agent_transfer exT exB10 exCap 42 150 "m" 5 =
      .ok ({ exT with
             approval_counter := 2,
             pending_approvals :=
               (1, { id := 1, amount := 150, recipient := 42, approvals := [],
                     required_approvals := 2, created_at := 5,
                     expires_at := 86400005, memo := "m" }) ::
                 exT.pending_approvals },
           exB10,
           [Event.approvalRequested 1 1 150 42 2], some 1) :=
  ⟨by decide,
   (C10_balance_checked_at_execution
     (show exT.tid = exCap.treasury_id from rfl)
     (show exT.tid = exB10.treasury_id from rfl)
     (show exT.emergency_mode = false from rfl)
     (show (150 : Nat) ≤ exCap.max_amount by decide)
     (show (5 : Nat) ≤ exCap.expires_at by decide)
     (show tblGet exT.agent_allocations exCap.agent_id = some exAlloc from rfl)
     (show exAlloc.spent_amount + 150 ≤ exAlloc.allocated_amount by decide)
     (show exT.cold_threshold ≤ 150 by decide)
     (show tblContains exT.pending_approvals exT.approval_counter = false from
       rfl)).1⟩

end Aniki
